import Mathlib

/-!
Verification of the reverse-mode automatic-differentiation engine and the
barrier-option pricer of this repository.

The repository ships two files: the example program
`examples/automatic_differentiation.rs` (a caller of the `autodiff` engine)
and `src/options/barrier.rs` (the Haug closed-form barrier pricer).  The
`autodiff` engine itself (Graph/Tape, Variable, accumulate, the gradient
view) is not among the shipped sources, so it is modelled here from the
specification's component design (tape of nodes with two parent indices and
two partial weights, append-only pushes, the reverse sweep, the gradient
view).  The barrier pricer is translated from `src/options/barrier.rs`.

Real numbers are modelled by an arbitrary `Field` (a `LinearOrderedField`
where the pricer compares prices); the transcendental primitives the code
uses (`sin`, `exp`, `ln`, `sqrt`, `powf`, the normal CDF `pnorm`, ...) are
collected in a `Prims` record so that every definition stays executable and
theorems can instantiate them with the actual real functions.
-/

namespace Autodiff

/-- Modelled from the spec: a Node is a record of one elementary operation,
`(parent0_index, partial0, parent1_index, partial1)`. -/
structure Node (α : Type) where
  p0 : Nat
  d0 : α
  p1 : Nat
  d1 : α

/-- Modelled from the spec: the Tape is a growable, append-only ordered
sequence of Nodes. -/
abbrev Tape (α : Type) := List (Node α)

/-- Modelled from the spec: a Variable is `(tape_ref, index, value)`; the
tape reference is made explicit by state passing, so a Variable here is the
pair of its node index and its forward value. -/
structure Variable (α : Type) where
  index : Nat
  value : α

/-- The transcendental primitives the repository's code consumes (`f64`
methods in Rust); they are passed explicitly so every definition is
executable over any field. -/
structure Prims (α : Type) where
  sin : α → α
  cos : α → α
  exp : α → α
  ln : α → α
  sqrt : α → α
  powf : α → α → α
  asinh : α → α
  pnorm : α → α
  npdf : α → α

variable {α : Type} [Field α]

/-- Modelled from the spec: `push_binary(p0, ∂0, p1, ∂1)` appends a node
with the two given parents and partials and returns the new index. -/
def pushBinary (t : Tape α) (i0 : Nat) (w0 : α) (i1 : Nat) (w1 : α) :
    Tape α × Nat :=
  (t ++ [⟨i0, w0, i1, w1⟩], t.length)

/-- Modelled from the spec: `push_unary(parent, ∂)` appends a node with
`parent0 = parent`, `partial0 = ∂`, `parent1 = new index` (self),
`partial1 = 0`. -/
def pushUnary (t : Tape α) (i0 : Nat) (w0 : α) : Tape α × Nat :=
  pushBinary t i0 w0 t.length 0

/-- Modelled from the spec: `push_leaf()` appends a leaf node whose parents
both point to the new index, partials both 0. -/
def pushLeaf (t : Tape α) : Tape α × Nat :=
  pushBinary t t.length 0 t.length 0

/-- Modelled from the spec: `Tape::var(x)` mints a leaf Variable carrying
value `x` (the example's `g.var(69.)`). -/
def var (t : Tape α) (x : α) : Tape α × Variable α :=
  ((pushLeaf t).1, ⟨t.length, x⟩)

/-- Modelled from the spec: `Tape::vars(&[..])` mints one leaf per element,
preserving order (the example's `graph.vars(&[3.0, 2.0, 1.0])`). -/
def vars (t : Tape α) : List α → Tape α × List (Variable α)
  | [] => (t, [])
  | x :: rest =>
    let p := var t x
    let q := vars p.1 rest
    (q.1, p.2 :: q.2)

/-- A binary operation: records one node carrying the two local partials and
returns a new Variable holding the numeric result. -/
def binOp (t : Tape α) (a b : Variable α) (v w0 w1 : α) :
    Tape α × Variable α :=
  ((pushBinary t a.index w0 b.index w1).1, ⟨t.length, v⟩)

/-- A unary operation: records one node carrying the local partial and
returns a new Variable holding the numeric result. -/
def unOp (t : Tape α) (a : Variable α) (v w0 : α) : Tape α × Variable α :=
  ((pushUnary t a.index w0).1, ⟨t.length, v⟩)

/-- Modelled from the spec: `a + b` with partials `(1, 1)`. -/
def add (t : Tape α) (a b : Variable α) : Tape α × Variable α :=
  binOp t a b (a.value + b.value) 1 1

/-- Modelled from the spec: `a - b` with partials `(1, -1)`. -/
def sub (t : Tape α) (a b : Variable α) : Tape α × Variable α :=
  binOp t a b (a.value - b.value) 1 (-1)

/-- Modelled from the spec: `a * b` with partials `(b, a)`. -/
def mul (t : Tape α) (a b : Variable α) : Tape α × Variable α :=
  binOp t a b (a.value * b.value) b.value a.value

/-- Modelled from the spec: `a / b` with partials `(1/b, -a/b²)`. -/
def div (t : Tape α) (a b : Variable α) : Tape α × Variable α :=
  binOp t a b (a.value / b.value) (1 / b.value)
    (-a.value / (b.value * b.value))

/-- Modelled from the spec: `Variable + real`; the real operand gets no
node, the partial with respect to the Variable side is 1. -/
def addR (t : Tape α) (a : Variable α) (c : α) : Tape α × Variable α :=
  unOp t a (a.value + c) 1

/-- Modelled from the spec: `real + Variable`. -/
def raddV (t : Tape α) (c : α) (a : Variable α) : Tape α × Variable α :=
  unOp t a (c + a.value) 1

/-- Modelled from the spec: `Variable * real` with partial the constant. -/
def mulR (t : Tape α) (a : Variable α) (c : α) : Tape α × Variable α :=
  unOp t a (a.value * c) c

/-- Modelled from the spec: `real * Variable` with partial the constant. -/
def rmulV (t : Tape α) (c : α) (a : Variable α) : Tape α × Variable α :=
  unOp t a (c * a.value) c

/-- Modelled from the spec: `Variable / real` with partial `1/c`. -/
def divR (t : Tape α) (a : Variable α) (c : α) : Tape α × Variable α :=
  unOp t a (a.value / c) (1 / c)

/-- Modelled from the spec: unary negation with partial `-1`. -/
def negV (t : Tape α) (a : Variable α) : Tape α × Variable α :=
  unOp t a (-a.value) (-1)

/-- Modelled from the spec: `sin` with partial `cos` at the operand. -/
def sinV (P : Prims α) (t : Tape α) (a : Variable α) : Tape α × Variable α :=
  unOp t a (P.sin a.value) (P.cos a.value)

/-- Modelled from the spec: `exp` with partial `exp` at the operand. -/
def expV (P : Prims α) (t : Tape α) (a : Variable α) : Tape α × Variable α :=
  unOp t a (P.exp a.value) (P.exp a.value)

/-- Modelled from the spec: `ln` with partial `1/a`. -/
def lnV (P : Prims α) (t : Tape α) (a : Variable α) : Tape α × Variable α :=
  unOp t a (P.ln a.value) (1 / a.value)

/-- Modelled from the spec: `sqrt` with partial `1/(2·sqrt a)`. -/
def sqrtV (P : Prims α) (t : Tape α) (a : Variable α) : Tape α × Variable α :=
  unOp t a (P.sqrt a.value) (1 / (2 * P.sqrt a.value))

/-- Modelled from the spec: `asinh` with partial `1/sqrt(1+a²)`. -/
def asinhV (P : Prims α) (t : Tape α) (a : Variable α) :
    Tape α × Variable α :=
  unOp t a (P.asinh a.value) (1 / P.sqrt (1 + a.value * a.value))

/-- Modelled from the spec: the normal CDF consumed by the pricer, with the
normal density as its recorded partial. -/
def pnormV (P : Prims α) (t : Tape α) (a : Variable α) :
    Tape α × Variable α :=
  unOp t a (P.pnorm a.value) (P.npdf a.value)

/-- Modelled from the spec: `powf` with a Variable exponent uses two parents
with partials `b·a^(b-1)` and `a^b·ln a`. -/
def powfV (P : Prims α) (t : Tape α) (a b : Variable α) :
    Tape α × Variable α :=
  binOp t a b (P.powf a.value b.value)
    (b.value * P.powf a.value (b.value - 1))
    (P.powf a.value b.value * P.ln a.value)

/-- Modelled from the spec: the Gradient View is the adjoints vector (its
length and its entries) together with a reference to its Tape. -/
structure GradientView (α : Type) where
  count : Nat
  adj : Nat → α
  tape : Tape α

/-- Modelled from the spec: one reverse-sweep step at node `i`,
`g[p0] += g[i]·∂0` then `g[p1] += g[i]·∂1` (the node's adjoint is read
once, as the code reads it into a local before the two writes). -/
def step (g : Nat → α) (i : Nat) (nd : Node α) : Nat → α :=
  let gi := g i
  let g1 := Function.update g nd.p0 (g nd.p0 + gi * nd.d0)
  Function.update g1 nd.p1 (g1 nd.p1 + gi * nd.d1)

/-- The reverse sweep over an indexed node list (fed with the tape's
enumeration reversed, i.e. indices from `n-1` down to `0`). -/
def sweep (g : Nat → α) : List (Nat × Node α) → Nat → α
  | [] => g
  | e :: rest => sweep (step g e.1 e.2) rest

/-- Modelled from the spec: `Variable::accumulate()` allocates an adjoint
vector of the tape's length, seeds the terminal index with 1, sweeps the
tape from the highest index down to 0 and wraps the result. -/
def accumulate (t : Tape α) (v : Variable α) : GradientView α :=
  ⟨t.length, sweep (Function.update (fun _ => 0) v.index 1) t.enum.reverse, t⟩

/-- Modelled from the spec: `wrt(v)` returns the adjoint at `v`'s index; a
Variable whose index is beyond the accumulated length reads 0 (the spec's
documented out-of-range policy). -/
def GradientView.wrt (g : GradientView α) (v : Variable α) : α :=
  if v.index < g.count then g.adj v.index else 0

/-- Modelled from the spec: `wrt` on an ordered sequence of Variables,
element-wise in order. -/
def GradientView.wrts (g : GradientView α) : List (Variable α) → List α
  | [] => []
  | v :: vs => g.wrt v :: g.wrts vs

/-- Modelled from the spec: `accumulate` as a state-passing operation.  The
spec describes accumulation as a read `&self` method that allocates a fresh
adjoints vector without mutating the Tape, so its tape component is carried
through unchanged. -/
def accumulateS (t : Tape α) (v : Variable α) : Tape α × GradientView α :=
  (t, accumulate t v)

/-- The example program's first section (`examples/automatic_differentiation.rs`,
SIMPLE EXPRESSIONS): `x = g.var(69.); y = g.var(420.); z = x * y + x.sin()`.
Returns the tape and the Variables `x`, `y`, `z`. -/
def simpleExample (P : Prims α) :
    Tape α × Variable α × Variable α × Variable α :=
  let px := var ([] : Tape α) 69
  let py := var px.1 420
  let pm := mul py.1 px.2 py.2
  let ps := sinV P pm.1 px.2
  let pz := add ps.1 pm.2 ps.2
  (pz.1, px.2, py.2, pz.2)

/-- A fresh leaf `x` and `f = x + x`; returns the tape, `x` and `f`. -/
def doubleExample (c : α) : Tape α × Variable α × Variable α :=
  let p := var ([] : Tape α) c
  let s := add p.1 p.2 p.2
  (s.1, p.2, s.2)

/-- A fresh leaf `x` and `f = x + x + x`; returns the tape, `x` and `f`. -/
def tripleExample (c : α) : Tape α × Variable α × Variable α :=
  let p := var ([] : Tape α) c
  let s1 := add p.1 p.2 p.2
  let s2 := add s1.1 s1.2 p.2
  (s2.1, p.2, s2.2)

/-- The example program's `function`
(`examples/automatic_differentiation.rs`, PROPER FUNCTIONS) with the plain
real summand left as a parameter `c`:
`variables[0].powf(variables[1]) + c - variables[2].asinh() / 2` over the
leaves minted by `graph.vars(&[3.0, 2.0, 1.0])`.  Returns the tape, the
three input Variables in order, and the result Variable. -/
def functionExampleC (P : Prims α) (c : α) :
    Tape α × (Variable α × Variable α × Variable α) × Variable α :=
  let xs := vars ([] : Tape α) [3, 2, 1]
  let x := xs.2.getD 0 ⟨0, 0⟩
  let y := xs.2.getD 1 ⟨0, 0⟩
  let z := xs.2.getD 2 ⟨0, 0⟩
  let q1 := powfV P xs.1 x y
  let q2 := addR q1.1 q1.2 c
  let q3 := asinhV P q2.1 z
  let q4 := divR q3.1 q3.2 2
  let q5 := sub q4.1 q2.2 q4.2
  (q5.1, (x, y, z), q5.2)

/-- The example program's `function` itself: the plain real summand is
`constants[0].sin()`, i.e. the real number `sin 1`. -/
def functionExample (P : Prims α) :
    Tape α × (Variable α × Variable α × Variable α) × Variable α :=
  functionExampleC P (P.sin 1)

/-- Modelled from the spec: a leaf Node at index `i` self-references both
parents with both partials 0. -/
def IsLeafAt (nd : Node α) (i : Nat) : Prop :=
  nd.p0 = i ∧ nd.p1 = i ∧ nd.d0 = 0 ∧ nd.d1 = 0

/-- The tapes reachable by the public operations: the empty tape, minting a
leaf (`var`, and `vars` by iteration), and the unary and binary recording
operations applied to Variables living on the tape (every arithmetic and
transcendental operator above is an instance of `unOp` or `binOp`). -/
inductive Reach : Tape α → Prop
  | empty : Reach ([] : Tape α)
  | leaf (t : Tape α) (x : α) : Reach t → Reach (var t x).1
  | unary (t : Tape α) (a : Variable α) (v w : α) :
      Reach t → a.index < t.length → Reach (unOp t a v w).1
  | binary (t : Tape α) (a b : Variable α) (v w0 w1 : α) :
      Reach t → a.index < t.length → b.index < t.length →
      Reach (binOp t a b v w0 w1).1

end Autodiff

open Autodiff

namespace Barrier

variable {α : Type} [LinearOrderedField α]

/-- Translated from `src/options/barrier.rs`: the closure `A`. -/
def Afun (P : Prims α) (S X b t r v x1 : α) (phi : α) : α :=
  phi * S * P.exp ((b - r) * t) * P.pnorm (phi * x1)
    - phi * X * P.exp (-r * t) * P.pnorm (phi * x1 - phi * v * P.sqrt t)

/-- Translated from `src/options/barrier.rs`: the closure `B`. -/
def Bfun (P : Prims α) (S X b t r v x2 : α) (phi : α) : α :=
  phi * S * P.exp ((b - r) * t) * P.pnorm (phi * x2)
    - phi * X * P.exp (-r * t) * P.pnorm (phi * x2 - phi * v * P.sqrt t)

/-- Translated from `src/options/barrier.rs`: the closure `C`. -/
def Cfun (P : Prims α) (S X H b mu t r v y1 : α) (phi eta : α) : α :=
  phi * S * P.exp ((b - r) * t) * P.powf (H / S) (2 * (mu + 1)) * P.pnorm (eta * y1)
    - phi * X * P.exp (-r * t) * P.powf (H / S) (2 * mu)
        * P.pnorm (eta * y1 - eta * v * P.sqrt t)

/-- Translated from `src/options/barrier.rs`: the closure `D`. -/
def Dfun (P : Prims α) (S X H b mu t r v y2 : α) (phi eta : α) : α :=
  phi * S * P.exp ((b - r) * t) * P.powf (H / S) (2 * (mu + 1)) * P.pnorm (eta * y2)
    - phi * X * P.exp (-r * t) * P.powf (H / S) (2 * mu)
        * P.pnorm (eta * y2 - eta * v * P.sqrt t)

/-- Translated from `src/options/barrier.rs`: the rebate closure `E`. -/
def Efun (P : Prims α) (S H K mu t r v x2 y2 : α) (eta : α) : α :=
  K * P.exp (-r * t) * (P.pnorm (eta * x2 - eta * v * P.sqrt t)
    - P.powf (H / S) (2 * mu) * P.pnorm (eta * y2 - eta * v * P.sqrt t))

/-- Translated from `src/options/barrier.rs`: the rebate closure `F`. -/
def Ffun (P : Prims α) (S H K mu lam t v z : α) (eta : α) : α :=
  K * (P.powf (H / S) (mu + lam) * P.pnorm (eta * z)
    + P.powf (H / S) (mu - lam) * P.pnorm (eta * z - 2 * eta * lam * v * P.sqrt t))

/-- Translated from `src/options/barrier.rs`: `BarrierOptionClosedForm`.
The Rust `match` with guards is an if-chain: each flag's arm returns its
price when its barrier guard holds, and every fall-through reaches the
`panic` arm, modelled as `none`. -/
def BarrierOptionClosedForm (P : Prims α) (S X H t r v K q : α)
    (type_flag : String) : Option α :=
  let b := r - q
  let mu := (b - v * v / 2) / (v * v)
  let lam := P.sqrt (mu * mu + 2 * r / (v * v))
  let z := P.ln (H / S) / (v * P.sqrt t) + lam * v * P.sqrt t
  let x1 := P.ln (S / X) / v * P.sqrt t + (1 + mu) * v * P.sqrt t
  let x2 := P.ln (S / H) / v * P.sqrt t + (1 + mu) * v * P.sqrt t
  let y1 := P.ln (H * H / (S * X)) / (v * P.sqrt t) + (1 + mu) * v * P.sqrt t
  let y2 := P.ln (H / S) / (v * P.sqrt t) + (1 + mu) * v * P.sqrt t
  let A := Afun P S X b t r v x1
  let Bf := Bfun P S X b t r v x2
  let Cf := Cfun P S X H b mu t r v y1
  let Df := Dfun P S X H b mu t r v y2
  let Ef := Efun P S H K mu t r v x2 y2
  let Ff := Ffun P S H K mu lam t v z
  if X ≥ H then
    if type_flag = "cdi" then (if S ≥ H then some (Cf 1 1 + Ef 1) else none)
    else if type_flag = "cui" then (if S ≤ H then some (A 1 + Ef (-1)) else none)
    else if type_flag = "pdi" then
      (if S ≥ H then some (Bf (-1) - Cf (-1) 1 + Df (-1) 1 + Ef 1) else none)
    else if type_flag = "pui" then
      (if S ≤ H then some (A (-1) - Bf (-1) + Df (-1) (-1) + Ef (-1)) else none)
    else if type_flag = "cdo" then (if S ≥ H then some (A 1 - Cf 1 1 + Ff 1) else none)
    else if type_flag = "cuo" then (if S ≤ H then some (Ff (-1)) else none)
    else if type_flag = "pdo" then
      (if S ≥ H then some (A (-1) - Bf (-1) + Cf (-1) 1 - Df (-1) 1 + Ff 1) else none)
    else if type_flag = "puo" then
      (if S ≤ H then some (Bf (-1) - Df (-1) (-1) + Ff (-1)) else none)
    else none
  else
    if type_flag = "cdi" then (if S ≥ H then some (A 1 - Bf 1 + Df 1 1 + Ef 1) else none)
    else if type_flag = "cui" then
      (if S ≤ H then some (Bf 1 - Cf 1 (-1) + Df 1 (-1) + Ef (-1)) else none)
    else if type_flag = "pdi" then (if S ≥ H then some (A (-1) + Ef 1) else none)
    else if type_flag = "pui" then (if S ≤ H then some (Cf (-1) (-1) + Ef (-1)) else none)
    else if type_flag = "cdo" then (if S ≥ H then some (Bf 1 - Df 1 1 + Ff 1) else none)
    else if type_flag = "cuo" then
      (if S ≤ H then some (A 1 - Bf 1 + Cf 1 (-1) - Df 1 (-1) + Ff (-1)) else none)
    else if type_flag = "pdo" then (if S ≥ H then some (Ff 1) else none)
    else if type_flag = "puo" then
      (if S ≤ H then some (A (-1) - Cf (-1) (-1) + Ff (-1)) else none)
    else none

/-- The four down-barrier flags of `BarrierOptionClosedForm`. -/
def downFlags : List String := ["cdi", "pdi", "cdo", "pdo"]

/-- The four up-barrier flags of `BarrierOptionClosedForm`. -/
def upFlags : List String := ["cui", "pui", "cuo", "puo"]

/-- Pointwise sum of two optional prices (both must be defined). -/
def addOpt (a b : Option α) : Option α :=
  match a, b with
  | some x, some y => some (x + y)
  | _, _ => none

/-- The barrier-free expression `A(1)` both in-out sums collapse to at
zero rebate: it does not mention the barrier `H`. -/
def vanillaCall (P : Prims α) (S X t r v q : α) : α :=
  let b := r - q
  let mu := (b - v * v / 2) / (v * v)
  let x1 := P.ln (S / X) / v * P.sqrt t + (1 + mu) * v * P.sqrt t
  Afun P S X b t r v x1 1

/-- The common quantities of the pricer (`b`, `mu`, `lambda`, `z`, `x1`,
`x2`, `y1`, `y2`) computed as Variables, together with the tape that
recorded them. -/
structure Mid (α : Type) where
  tape : Tape α
  b : Variable α
  mu : Variable α
  lam : Variable α
  z : Variable α
  x1 : Variable α
  x2 : Variable α
  y1 : Variable α
  y2 : Variable α

/-- The pricer's prelude evaluated with Variables: every arithmetic step
of the common terms appends one node to the tape. -/
def mid (P : Prims α) (t0 : Tape α) (S X H t r v q : Variable α) : Mid α :=
  let sb := sub t0 r q
  let e1 := mul sb.1 v v
  let e2 := divR e1.1 e1.2 2
  let e3 := sub e2.1 sb.2 e2.2
  let e4 := mul e3.1 v v
  let e5 := div e4.1 e3.2 e4.2
  let f1 := mul e5.1 e5.2 e5.2
  let f2 := rmulV f1.1 2 r
  let f3 := mul f2.1 v v
  let f4 := div f3.1 f2.2 f3.2
  let f5 := add f4.1 f1.2 f4.2
  let f6 := sqrtV P f5.1 f5.2
  let g1 := div f6.1 H S
  let g2 := lnV P g1.1 g1.2
  let g3 := sqrtV P g2.1 t
  let g4 := mul g3.1 v g3.2
  let g5 := div g4.1 g2.2 g4.2
  let g6 := mul g5.1 f6.2 v
  let g7 := sqrtV P g6.1 t
  let g8 := mul g7.1 g6.2 g7.2
  let g9 := add g8.1 g5.2 g8.2
  let h1 := div g9.1 S X
  let h2 := lnV P h1.1 h1.2
  let h3 := div h2.1 h2.2 v
  let h4 := sqrtV P h3.1 t
  let h5 := mul h4.1 h3.2 h4.2
  let h6 := raddV h5.1 1 e5.2
  let h7 := mul h6.1 h6.2 v
  let h8 := sqrtV P h7.1 t
  let h9 := mul h8.1 h7.2 h8.2
  let h10 := add h9.1 h5.2 h9.2
  let i1 := div h10.1 S H
  let i2 := lnV P i1.1 i1.2
  let i3 := div i2.1 i2.2 v
  let i4 := sqrtV P i3.1 t
  let i5 := mul i4.1 i3.2 i4.2
  let i6 := raddV i5.1 1 e5.2
  let i7 := mul i6.1 i6.2 v
  let i8 := sqrtV P i7.1 t
  let i9 := mul i8.1 i7.2 i8.2
  let i10 := add i9.1 i5.2 i9.2
  let j1 := mul i10.1 H H
  let j2 := mul j1.1 S X
  let j3 := div j2.1 j1.2 j2.2
  let j4 := lnV P j3.1 j3.2
  let j5 := sqrtV P j4.1 t
  let j6 := mul j5.1 v j5.2
  let j7 := div j6.1 j4.2 j6.2
  let j8 := raddV j7.1 1 e5.2
  let j9 := mul j8.1 j8.2 v
  let j10 := sqrtV P j9.1 t
  let j11 := mul j10.1 j9.2 j10.2
  let j12 := add j11.1 j7.2 j11.2
  let k1 := div j12.1 H S
  let k2 := lnV P k1.1 k1.2
  let k3 := sqrtV P k2.1 t
  let k4 := mul k3.1 v k3.2
  let k5 := div k4.1 k2.2 k4.2
  let k6 := raddV k5.1 1 e5.2
  let k7 := mul k6.1 k6.2 v
  let k8 := sqrtV P k7.1 t
  let k9 := mul k8.1 k7.2 k8.2
  let k10 := add k9.1 k5.2 k9.2
  ⟨k10.1, sb.2, e5.2, f6.2, g9.2, h10.2, i10.2, j12.2, k10.2⟩

/-- The closure `A` evaluated with Variables. -/
def AVar (P : Prims α) (S X t r v b x1 : Variable α) (tp : Tape α)
    (phi : α) : Tape α × Variable α :=
  let u1 := rmulV tp phi S
  let u2 := sub u1.1 b r
  let u3 := mul u2.1 u2.2 t
  let u4 := expV P u3.1 u3.2
  let u5 := mul u4.1 u1.2 u4.2
  let u6 := rmulV u5.1 phi x1
  let u7 := pnormV P u6.1 u6.2
  let u8 := mul u7.1 u5.2 u7.2
  let u9 := rmulV u8.1 phi X
  let u10 := negV u9.1 r
  let u11 := mul u10.1 u10.2 t
  let u12 := expV P u11.1 u11.2
  let u13 := mul u12.1 u9.2 u12.2
  let u14 := rmulV u13.1 phi x1
  let u15 := rmulV u14.1 phi v
  let u16 := sqrtV P u15.1 t
  let u17 := mul u16.1 u15.2 u16.2
  let u18 := sub u17.1 u14.2 u17.2
  let u19 := pnormV P u18.1 u18.2
  let u20 := mul u19.1 u13.2 u19.2
  sub u20.1 u8.2 u20.2

/-- The closure `B` evaluated with Variables: `A` read at `x2`. -/
def BVar (P : Prims α) (S X t r v b x2 : Variable α) (tp : Tape α)
    (phi : α) : Tape α × Variable α :=
  AVar P S X t r v b x2 tp phi

/-- The closure `C` evaluated with Variables. -/
def CVar (P : Prims α) (S X H t r v b mu y1 : Variable α) (tp : Tape α)
    (phi eta : α) : Tape α × Variable α :=
  let c1 := rmulV tp phi S
  let c2 := sub c1.1 b r
  let c3 := mul c2.1 c2.2 t
  let c4 := expV P c3.1 c3.2
  let c5 := mul c4.1 c1.2 c4.2
  let c6 := div c5.1 H S
  let c7 := addR c6.1 mu 1
  let c8 := rmulV c7.1 2 c7.2
  let c9 := powfV P c8.1 c6.2 c8.2
  let c10 := mul c9.1 c5.2 c9.2
  let c11 := rmulV c10.1 eta y1
  let c12 := pnormV P c11.1 c11.2
  let c13 := mul c12.1 c10.2 c12.2
  let c14 := rmulV c13.1 phi X
  let c15 := negV c14.1 r
  let c16 := mul c15.1 c15.2 t
  let c17 := expV P c16.1 c16.2
  let c18 := mul c17.1 c14.2 c17.2
  let c19 := div c18.1 H S
  let c20 := rmulV c19.1 2 mu
  let c21 := powfV P c20.1 c19.2 c20.2
  let c22 := mul c21.1 c18.2 c21.2
  let c23 := rmulV c22.1 eta y1
  let c24 := rmulV c23.1 eta v
  let c25 := sqrtV P c24.1 t
  let c26 := mul c25.1 c24.2 c25.2
  let c27 := sub c26.1 c23.2 c26.2
  let c28 := pnormV P c27.1 c27.2
  let c29 := mul c28.1 c22.2 c28.2
  sub c29.1 c13.2 c29.2

/-- The closure `D` evaluated with Variables: `C` read at `y2`. -/
def DVar (P : Prims α) (S X H t r v b mu y2 : Variable α) (tp : Tape α)
    (phi eta : α) : Tape α × Variable α :=
  CVar P S X H t r v b mu y2 tp phi eta

/-- The rebate closure `E` evaluated with Variables. -/
def EVar (P : Prims α) (S H t r v K mu x2 y2 : Variable α) (tp : Tape α)
    (eta : α) : Tape α × Variable α :=
  let d1 := rmulV tp eta x2
  let d2 := rmulV d1.1 eta v
  let d3 := sqrtV P d2.1 t
  let d4 := mul d3.1 d2.2 d3.2
  let d5 := sub d4.1 d1.2 d4.2
  let d6 := pnormV P d5.1 d5.2
  let d7 := div d6.1 H S
  let d8 := rmulV d7.1 2 mu
  let d9 := powfV P d8.1 d7.2 d8.2
  let d10 := rmulV d9.1 eta y2
  let d11 := rmulV d10.1 eta v
  let d12 := sqrtV P d11.1 t
  let d13 := mul d12.1 d11.2 d12.2
  let d14 := sub d13.1 d10.2 d13.2
  let d15 := pnormV P d14.1 d14.2
  let d16 := mul d15.1 d9.2 d15.2
  let d17 := negV d16.1 r
  let d18 := mul d17.1 d17.2 t
  let d19 := expV P d18.1 d18.2
  let d20 := mul d19.1 K d19.2
  let d21 := sub d20.1 d6.2 d16.2
  mul d21.1 d20.2 d21.2

/-- The rebate closure `F` evaluated with Variables. -/
def FVar (P : Prims α) (S H t v K mu lam z : Variable α) (tp : Tape α)
    (eta : α) : Tape α × Variable α :=
  let w1 := div tp H S
  let w2 := add w1.1 mu lam
  let w3 := powfV P w2.1 w1.2 w2.2
  let w4 := rmulV w3.1 eta z
  let w5 := pnormV P w4.1 w4.2
  let w6 := mul w5.1 w3.2 w5.2
  let w7 := div w6.1 H S
  let w8 := sub w7.1 mu lam
  let w9 := powfV P w8.1 w7.2 w8.2
  let w10 := rmulV w9.1 eta z
  let w11 := rmulV w10.1 (2 * eta) lam
  let w12 := mul w11.1 w11.2 v
  let w13 := sqrtV P w12.1 t
  let w14 := mul w13.1 w12.2 w13.2
  let w15 := sub w14.1 w10.2 w14.2
  let w16 := pnormV P w15.1 w15.2
  let w17 := mul w16.1 w9.2 w16.2
  let w18 := add w17.1 w6.2 w17.2
  mul w18.1 K w18.2

/-- Modelled from the spec: `BarrierOptionClosedForm` compiled against
Variable — the same formula with every scalar operation replaced by the
recording operation of the autodiff engine, so the evaluation trace is
captured on the Tape.  Comparisons read `value` only and record nothing;
the panic arm is `none` as in the scalar translation. -/
def BarrierOptionClosedFormVar (P : Prims α) (t0 : Tape α)
    (S X H t r v K q : Variable α) (type_flag : String) :
    Option (Tape α × Variable α) :=
  let m := mid P t0 S X H t r v q
  let tp := m.tape
  if X.value ≥ H.value then
    if type_flag = "cdi" then
      (if S.value ≥ H.value then
        let a1 := CVar P S X H t r v m.b m.mu m.y1 tp 1 1
        let a2 := EVar P S H t r v K m.mu m.x2 m.y2 a1.1 1
        some (add a2.1 a1.2 a2.2)
      else none)
    else if type_flag = "cui" then
      (if S.value ≤ H.value then
        let a1 := AVar P S X t r v m.b m.x1 tp 1
        let a2 := EVar P S H t r v K m.mu m.x2 m.y2 a1.1 (-1)
        some (add a2.1 a1.2 a2.2)
      else none)
    else if type_flag = "pdi" then
      (if S.value ≥ H.value then
        let a1 := BVar P S X t r v m.b m.x2 tp (-1)
        let a2 := CVar P S X H t r v m.b m.mu m.y1 a1.1 (-1) 1
        let a3 := sub a2.1 a1.2 a2.2
        let a4 := DVar P S X H t r v m.b m.mu m.y2 a3.1 (-1) 1
        let a5 := add a4.1 a3.2 a4.2
        let a6 := EVar P S H t r v K m.mu m.x2 m.y2 a5.1 1
        some (add a6.1 a5.2 a6.2)
      else none)
    else if type_flag = "pui" then
      (if S.value ≤ H.value then
        let a1 := AVar P S X t r v m.b m.x1 tp (-1)
        let a2 := BVar P S X t r v m.b m.x2 a1.1 (-1)
        let a3 := sub a2.1 a1.2 a2.2
        let a4 := DVar P S X H t r v m.b m.mu m.y2 a3.1 (-1) (-1)
        let a5 := add a4.1 a3.2 a4.2
        let a6 := EVar P S H t r v K m.mu m.x2 m.y2 a5.1 (-1)
        some (add a6.1 a5.2 a6.2)
      else none)
    else if type_flag = "cdo" then
      (if S.value ≥ H.value then
        let a1 := AVar P S X t r v m.b m.x1 tp 1
        let a2 := CVar P S X H t r v m.b m.mu m.y1 a1.1 1 1
        let a3 := sub a2.1 a1.2 a2.2
        let a4 := FVar P S H t v K m.mu m.lam m.z a3.1 1
        some (add a4.1 a3.2 a4.2)
      else none)
    else if type_flag = "cuo" then
      (if S.value ≤ H.value then
        some (FVar P S H t v K m.mu m.lam m.z tp (-1))
      else none)
    else if type_flag = "pdo" then
      (if S.value ≥ H.value then
        let a1 := AVar P S X t r v m.b m.x1 tp (-1)
        let a2 := BVar P S X t r v m.b m.x2 a1.1 (-1)
        let a3 := sub a2.1 a1.2 a2.2
        let a4 := CVar P S X H t r v m.b m.mu m.y1 a3.1 (-1) 1
        let a5 := add a4.1 a3.2 a4.2
        let a6 := DVar P S X H t r v m.b m.mu m.y2 a5.1 (-1) 1
        let a7 := sub a6.1 a5.2 a6.2
        let a8 := FVar P S H t v K m.mu m.lam m.z a7.1 1
        some (add a8.1 a7.2 a8.2)
      else none)
    else if type_flag = "puo" then
      (if S.value ≤ H.value then
        let a1 := BVar P S X t r v m.b m.x2 tp (-1)
        let a2 := DVar P S X H t r v m.b m.mu m.y2 a1.1 (-1) (-1)
        let a3 := sub a2.1 a1.2 a2.2
        let a4 := FVar P S H t v K m.mu m.lam m.z a3.1 (-1)
        some (add a4.1 a3.2 a4.2)
      else none)
    else none
  else
    if type_flag = "cdi" then
      (if S.value ≥ H.value then
        let a1 := AVar P S X t r v m.b m.x1 tp 1
        let a2 := BVar P S X t r v m.b m.x2 a1.1 1
        let a3 := sub a2.1 a1.2 a2.2
        let a4 := DVar P S X H t r v m.b m.mu m.y2 a3.1 1 1
        let a5 := add a4.1 a3.2 a4.2
        let a6 := EVar P S H t r v K m.mu m.x2 m.y2 a5.1 1
        some (add a6.1 a5.2 a6.2)
      else none)
    else if type_flag = "cui" then
      (if S.value ≤ H.value then
        let a1 := BVar P S X t r v m.b m.x2 tp 1
        let a2 := CVar P S X H t r v m.b m.mu m.y1 a1.1 1 (-1)
        let a3 := sub a2.1 a1.2 a2.2
        let a4 := DVar P S X H t r v m.b m.mu m.y2 a3.1 1 (-1)
        let a5 := add a4.1 a3.2 a4.2
        let a6 := EVar P S H t r v K m.mu m.x2 m.y2 a5.1 (-1)
        some (add a6.1 a5.2 a6.2)
      else none)
    else if type_flag = "pdi" then
      (if S.value ≥ H.value then
        let a1 := AVar P S X t r v m.b m.x1 tp (-1)
        let a2 := EVar P S H t r v K m.mu m.x2 m.y2 a1.1 1
        some (add a2.1 a1.2 a2.2)
      else none)
    else if type_flag = "pui" then
      (if S.value ≤ H.value then
        let a1 := CVar P S X H t r v m.b m.mu m.y1 tp (-1) (-1)
        let a2 := EVar P S H t r v K m.mu m.x2 m.y2 a1.1 (-1)
        some (add a2.1 a1.2 a2.2)
      else none)
    else if type_flag = "cdo" then
      (if S.value ≥ H.value then
        let a1 := BVar P S X t r v m.b m.x2 tp 1
        let a2 := DVar P S X H t r v m.b m.mu m.y2 a1.1 1 1
        let a3 := sub a2.1 a1.2 a2.2
        let a4 := FVar P S H t v K m.mu m.lam m.z a3.1 1
        some (add a4.1 a3.2 a4.2)
      else none)
    else if type_flag = "cuo" then
      (if S.value ≤ H.value then
        let a1 := AVar P S X t r v m.b m.x1 tp 1
        let a2 := BVar P S X t r v m.b m.x2 a1.1 1
        let a3 := sub a2.1 a1.2 a2.2
        let a4 := CVar P S X H t r v m.b m.mu m.y1 a3.1 1 (-1)
        let a5 := add a4.1 a3.2 a4.2
        let a6 := DVar P S X H t r v m.b m.mu m.y2 a5.1 1 (-1)
        let a7 := sub a6.1 a5.2 a6.2
        let a8 := FVar P S H t v K m.mu m.lam m.z a7.1 (-1)
        some (add a8.1 a7.2 a8.2)
      else none)
    else if type_flag = "pdo" then
      (if S.value ≥ H.value then
        some (FVar P S H t v K m.mu m.lam m.z tp 1)
      else none)
    else if type_flag = "puo" then
      (if S.value ≤ H.value then
        let a1 := AVar P S X t r v m.b m.x1 tp (-1)
        let a2 := CVar P S X H t r v m.b m.mu m.y1 a1.1 (-1) (-1)
        let a3 := sub a2.1 a1.2 a2.2
        let a4 := FVar P S H t v K m.mu m.lam m.z a3.1 (-1)
        some (add a4.1 a3.2 a4.2)
      else none)
    else none

end Barrier

/-- Trivial rational primitives used for concrete witnesses. -/
def qPrims : Prims ℚ :=
  ⟨fun x => x, fun x => x, fun x => x, fun x => x, fun x => x,
    fun a b => a * b, fun x => x, fun x => x, fun x => x⟩

open Barrier

open Autodiff

/-- Looking an index up in a tape extended by one node: either the index is
within the old tape, or it is exactly the old length and sees the new node. -/
theorem append_lookup {β : Type} {t : List β} {nw : β} {i : Nat} {nd : β}
    (hg : (t ++ [nw])[i]? = some nd) :
    (i < t.length ∧ t[i]? = some nd) ∨ (i = t.length ∧ nd = nw) := by
  by_cases hi : i < t.length
  · rw [List.getElem?_append, if_pos hi] at hg
    exact Or.inl ⟨hi, hg⟩
  · rw [List.getElem?_append, if_neg hi] at hg
    have h1 : i - t.length < 1 := by
      have := (List.getElem?_eq_some.mp hg).1
      simpa using this
    have h2 : i = t.length := by omega
    subst h2
    simp at hg
    exact Or.inr ⟨rfl, hg.symm⟩

/-- C4 (amended): on every Tape reachable by the public operations, every
Node `i` has both parent indices at most `i`; a non-leaf Node's first parent
index is strictly less than `i`, and its second parent index is either
strictly less than `i` or is the self-reference `i` carrying partial 0 (as
recorded by `push_unary`). -/
theorem tape_parent_bounds {α : Type} [Field α] (t : Tape α) (h : Reach t)
    (i : Nat) (nd : Node α) (hg : t[i]? = some nd) :
    nd.p0 ≤ i ∧ nd.p1 ≤ i ∧
      (¬ IsLeafAt nd i →
        nd.p0 < i ∧ (nd.p1 < i ∨ nd.p1 = i ∧ nd.d1 = 0)) := by
  induction h generalizing i nd with
  | empty => simp at hg
  | leaf t' x ht ih =>
    simp only [var, pushLeaf, pushBinary] at hg
    rcases append_lookup hg with ⟨hi, hg'⟩ | ⟨hEq, hnd⟩
    · exact ih i nd hg'
    · subst hEq; subst hnd
      refine ⟨le_refl _, le_refl _, fun hnl => absurd ⟨rfl, rfl, rfl, rfl⟩ hnl⟩
  | unary t' a v w ht ha ih =>
    simp only [unOp, pushUnary, pushBinary] at hg
    rcases append_lookup hg with ⟨hi, hg'⟩ | ⟨hEq, hnd⟩
    · exact ih i nd hg'
    · subst hEq; subst hnd
      exact ⟨Nat.le_of_lt ha, le_refl _, fun _ => ⟨ha, Or.inr ⟨rfl, rfl⟩⟩⟩
  | binary t' a b v w0 w1 ht ha hb ih =>
    simp only [binOp, pushBinary] at hg
    rcases append_lookup hg with ⟨hi, hg'⟩ | ⟨hEq, hnd⟩
    · exact ih i nd hg'
    · subst hEq; subst hnd
      exact ⟨Nat.le_of_lt ha, Nat.le_of_lt hb, fun _ => ⟨ha, Or.inl hb⟩⟩

/-- C4 witness: the amended bound evaluated on the one-leaf tape minted by
`var` on the empty tape. -/
theorem tape_parent_bounds_witness :
    (⟨0, (0 : ℚ), 0, 0⟩ : Node ℚ).p0 ≤ 0 ∧
      (⟨0, (0 : ℚ), 0, 0⟩ : Node ℚ).p1 ≤ 0 ∧
      (¬ IsLeafAt (⟨0, (0 : ℚ), 0, 0⟩ : Node ℚ) 0 →
        (⟨0, (0 : ℚ), 0, 0⟩ : Node ℚ).p0 < 0 ∧
          ((⟨0, (0 : ℚ), 0, 0⟩ : Node ℚ).p1 < 0 ∨
            (⟨0, (0 : ℚ), 0, 0⟩ : Node ℚ).p1 = 0 ∧
              (⟨0, (0 : ℚ), 0, 0⟩ : Node ℚ).d1 = 0)) :=
  tape_parent_bounds (var ([] : Tape ℚ) 5).1 (Reach.leaf _ _ Reach.empty) 0
    ⟨0, 0, 0, 0⟩ rfl

/-- C4 counterexample: the claim as stated — every non-leaf Node's parent
indices strictly below its own index — fails on the two-node tape built by
`var` followed by the recording operation `x * 1` (`mulR`): the product
node sits at index 1, is not a leaf (its first parent is node 0), yet its
second parent index is the self-reference 1, not strictly less than 1. -/
theorem strict_parent_claim_false :
    ¬ ∀ (t : Tape ℚ), Reach t → ∀ (i : Nat) (nd : Node ℚ), t[i]? = some nd →
        nd.p0 ≤ i ∧ nd.p1 ≤ i ∧
          (¬ IsLeafAt nd i → nd.p0 < i ∧ nd.p1 < i) := by
  intro h
  have hr : Reach (mulR (var ([] : Tape ℚ) 2).1 (var ([] : Tape ℚ) 2).2 1).1 :=
    Reach.unary _ _ _ _ (Reach.leaf _ _ Reach.empty) (by decide)
  have h2 := h _ hr 1 ⟨0, 1, 1, 0⟩ rfl
  have h3 := h2.2.2 (fun hL => absurd hL.1 (by decide))
  exact absurd h3.2 (by decide)

/-- C1: for the example program's tape (`x = 69`, `y = 420`,
`z = x * y + x.sin()`), the forward value is `z.value = 69·420 + sin 69`
and the accumulated gradient satisfies `dz/dx = y + cos x = 420 + cos 69`
and `dz/dy = x = 69`. -/
theorem example_simple_gradients (P : Prims ℝ)
    (hs : P.sin 69 = Real.sin 69) (hc : P.cos 69 = Real.cos 69) :
    (simpleExample P).2.2.2.value = 69 * 420 + Real.sin 69
    ∧ (accumulate (simpleExample P).1 (simpleExample P).2.2.2).wrt
        (simpleExample P).2.1 = 420 + Real.cos 69
    ∧ (accumulate (simpleExample P).1 (simpleExample P).2.2.2).wrt
        (simpleExample P).2.2.1 = 69 := by
  refine ⟨?_, ?_, ?_⟩ <;>
    simp [simpleExample, var, add, mul, sinV, unOp, binOp, pushBinary,
      pushLeaf, pushUnary, accumulate, sweep, step, GradientView.wrt,
      List.enum, List.enumFrom, Function.update_apply, hs, hc] <;>
    ring

/-- C1 witness: the conclusion at the real primitives. -/
theorem example_simple_gradients_witness :
    (simpleExample (⟨Real.sin, Real.cos, Real.exp, Real.log, Real.sqrt,
        fun a b => a ^ b, Real.arsinh, fun x => x, fun x => x⟩ :
          Prims ℝ)).2.2.2.value = 69 * 420 + Real.sin 69 :=
  (example_simple_gradients _ rfl rfl).1

/-- C2: adjoints accumulate rather than overwrite under duplicate use of
one Variable: for any leaf `x`, `f = x + x` accumulates to `df/dx = 2`
and `f = x + x + x` accumulates to `df/dx = 3`. -/
theorem duplicate_use_adjoints (c : ℝ) :
    (accumulate (doubleExample c).1 (doubleExample c).2.2).wrt
        (doubleExample c).2.1 = 2
    ∧ (accumulate (tripleExample c).1 (tripleExample c).2.2).wrt
        (tripleExample c).2.1 = 3 := by
  refine ⟨?_, ?_⟩ <;>
    simp [doubleExample, tripleExample, var, add, binOp, pushBinary,
      pushLeaf, pushUnary, accumulate, sweep, step, GradientView.wrt,
      List.enum, List.enumFrom, Function.update_apply] <;>
    norm_num

/-- C3: for the example `function` over leaves `x = 3`, `y = 2`, `z = 1`
and any plain real summand `c` (the program uses `c = sin 1`),
`∂f/∂x = y·x^(y-1) = 6`, `∂f/∂y = x^y·ln x = 9·ln 3`,
`∂f/∂z = -1/(2·√2)`; the gradient entries are independent of `c`, so the
constant term `sin 1` contributes 0 to every one of them. -/
theorem function_example_gradients (P : Prims ℝ)
    (hpowf : P.powf = fun a b : ℝ => a ^ b) (hln : P.ln = Real.log)
    (hsqrt : P.sqrt = Real.sqrt) (c : ℝ) :
    (accumulate (functionExampleC P c).1 (functionExampleC P c).2.2).wrt
        (functionExampleC P c).2.1.1 = 6
    ∧ (accumulate (functionExampleC P c).1 (functionExampleC P c).2.2).wrt
        (functionExampleC P c).2.1.2.1 = 9 * Real.log 3
    ∧ (accumulate (functionExampleC P c).1 (functionExampleC P c).2.2).wrt
        (functionExampleC P c).2.1.2.2 = -(1 / (2 * Real.sqrt 2)) := by
  have h31 : (3 : ℝ) ^ ((2 : ℝ) - 1) = 3 := by
    norm_num
  have h32 : (3 : ℝ) ^ (2 : ℝ) = 9 := by
    rw [show (2 : ℝ) = ((2 : ℕ) : ℝ) by norm_num, Real.rpow_natCast]
    norm_num
  refine ⟨?_, ?_, ?_⟩ <;>
    simp [functionExampleC, vars, var, powfV, addR, asinhV, divR, sub,
      unOp, binOp, pushBinary, pushLeaf, pushUnary, accumulate, sweep,
      step, GradientView.wrt, List.enum, List.enumFrom,
      Function.update_apply, hpowf, hln, hsqrt, h31, h32] <;>
    norm_num <;> ring

/-- C3 witness: the first gradient entry at the real primitives and the
program's own constant. -/
theorem function_example_gradients_witness :
    (accumulate
        (functionExampleC (⟨Real.sin, Real.cos, Real.exp, Real.log,
            Real.sqrt, fun a b => a ^ b, Real.arsinh, fun x => x,
            fun x => x⟩ : Prims ℝ) (Real.sin 1)).1
        (functionExampleC (⟨Real.sin, Real.cos, Real.exp, Real.log,
            Real.sqrt, fun a b => a ^ b, Real.arsinh, fun x => x,
            fun x => x⟩ : Prims ℝ) (Real.sin 1)).2.2).wrt
      (functionExampleC (⟨Real.sin, Real.cos, Real.exp, Real.log,
          Real.sqrt, fun a b => a ^ b, Real.arsinh, fun x => x,
          fun x => x⟩ : Prims ℝ) (Real.sin 1)).2.1.1 = 6 :=
  (function_example_gradients _ rfl rfl rfl (Real.sin 1)).1

/-- C5: a leaf minted by `var` on a fresh Tape accumulates to gradient 1
with respect to itself, and accumulating over an empty Tape yields an
empty GradientView (its adjoints vector has length 0). -/
theorem leaf_unit_gradient_and_empty_tape :
    (∀ c : ℝ, (accumulate (var ([] : Tape ℝ) c).1 (var ([] : Tape ℝ) c).2).wrt
        (var ([] : Tape ℝ) c).2 = 1)
    ∧ ∀ v : Variable ℝ, (accumulate ([] : Tape ℝ) v).count = 0 := by
  constructor
  · intro c
    simp [var, pushLeaf, pushBinary, accumulate, sweep, step,
      GradientView.wrt, List.enum, List.enumFrom, Function.update_apply]
  · intro v
    simp [accumulate]

/-- C6: in the state-passing model of `accumulate`, the Tape is left
entirely unchanged, so accumulation may be repeated (yielding the same
view) and interleaved with further appends (which behave exactly as
appends to the original tape). -/
theorem accumulate_preserves_tape (t : Tape ℝ) (v : Variable ℝ) :
    (accumulateS t v).1 = t
    ∧ (accumulateS (accumulateS t v).1 v).2 = (accumulateS t v).2
    ∧ ∀ x : ℝ, var (accumulateS t v).1 x = var t x :=
  ⟨rfl, rfl, fun _ => rfl⟩

/-- C7: `wrt` on an ordered sequence of Variables is the element-wise
lookup preserving input order. -/
theorem wrts_elementwise (g : GradientView ℝ) (vs : List (Variable ℝ)) :
    g.wrts vs = vs.map g.wrt := by
  induction vs with
  | nil => rfl
  | cons v rest ih => simp [GradientView.wrts, ih]

namespace Barrier

variable {α : Type} [LinearOrderedField α]

theorem mid_b_value (P : Prims α) (t0 : Tape α) (S X H t r v q : Variable α) :
    (mid P t0 S X H t r v q).b.value = r.value - q.value := rfl

theorem mid_mu_value (P : Prims α) (t0 : Tape α) (S X H t r v q : Variable α) :
    (mid P t0 S X H t r v q).mu.value =
      ((mid P t0 S X H t r v q).b.value - v.value * v.value / 2)
        / (v.value * v.value) := rfl

theorem mid_lam_value (P : Prims α) (t0 : Tape α) (S X H t r v q : Variable α) :
    (mid P t0 S X H t r v q).lam.value =
      P.sqrt ((mid P t0 S X H t r v q).mu.value * (mid P t0 S X H t r v q).mu.value
        + 2 * r.value / (v.value * v.value)) := rfl

theorem mid_z_value (P : Prims α) (t0 : Tape α) (S X H t r v q : Variable α) :
    (mid P t0 S X H t r v q).z.value =
      P.ln (H.value / S.value) / (v.value * P.sqrt t.value)
        + (mid P t0 S X H t r v q).lam.value * v.value * P.sqrt t.value := rfl

theorem mid_x1_value (P : Prims α) (t0 : Tape α) (S X H t r v q : Variable α) :
    (mid P t0 S X H t r v q).x1.value =
      P.ln (S.value / X.value) / v.value * P.sqrt t.value
        + (1 + (mid P t0 S X H t r v q).mu.value) * v.value * P.sqrt t.value := rfl

theorem mid_x2_value (P : Prims α) (t0 : Tape α) (S X H t r v q : Variable α) :
    (mid P t0 S X H t r v q).x2.value =
      P.ln (S.value / H.value) / v.value * P.sqrt t.value
        + (1 + (mid P t0 S X H t r v q).mu.value) * v.value * P.sqrt t.value := rfl

theorem mid_y1_value (P : Prims α) (t0 : Tape α) (S X H t r v q : Variable α) :
    (mid P t0 S X H t r v q).y1.value =
      P.ln (H.value * H.value / (S.value * X.value)) / (v.value * P.sqrt t.value)
        + (1 + (mid P t0 S X H t r v q).mu.value) * v.value * P.sqrt t.value := rfl

theorem mid_y2_value (P : Prims α) (t0 : Tape α) (S X H t r v q : Variable α) :
    (mid P t0 S X H t r v q).y2.value =
      P.ln (H.value / S.value) / (v.value * P.sqrt t.value)
        + (1 + (mid P t0 S X H t r v q).mu.value) * v.value * P.sqrt t.value := rfl

theorem AVar_value (P : Prims α) (S X t r v b x1 : Variable α) (tp : Tape α)
    (phi : α) :
    (AVar P S X t r v b x1 tp phi).2.value =
      phi * S.value * P.exp ((b.value - r.value) * t.value)
          * P.pnorm (phi * x1.value)
        - phi * X.value * P.exp (-r.value * t.value)
            * P.pnorm (phi * x1.value - phi * v.value * P.sqrt t.value) := rfl

theorem CVar_value (P : Prims α) (S X H t r v b mu y1 : Variable α)
    (tp : Tape α) (phi eta : α) :
    (CVar P S X H t r v b mu y1 tp phi eta).2.value =
      phi * S.value * P.exp ((b.value - r.value) * t.value)
          * P.powf (H.value / S.value) (2 * (mu.value + 1))
          * P.pnorm (eta * y1.value)
        - phi * X.value * P.exp (-r.value * t.value)
            * P.powf (H.value / S.value) (2 * mu.value)
            * P.pnorm (eta * y1.value - eta * v.value * P.sqrt t.value) := rfl

theorem EVar_value (P : Prims α) (S H t r v K mu x2 y2 : Variable α)
    (tp : Tape α) (eta : α) :
    (EVar P S H t r v K mu x2 y2 tp eta).2.value =
      K.value * P.exp (-r.value * t.value)
        * (P.pnorm (eta * x2.value - eta * v.value * P.sqrt t.value)
          - P.powf (H.value / S.value) (2 * mu.value)
              * P.pnorm (eta * y2.value - eta * v.value * P.sqrt t.value)) := rfl

theorem FVar_value (P : Prims α) (S H t v K mu lam z : Variable α)
    (tp : Tape α) (eta : α) :
    (FVar P S H t v K mu lam z tp eta).2.value =
      K.value * (P.powf (H.value / S.value) (mu.value + lam.value)
            * P.pnorm (eta * z.value)
          + P.powf (H.value / S.value) (mu.value - lam.value)
              * P.pnorm (eta * z.value
                - 2 * eta * lam.value * v.value * P.sqrt t.value)) := rfl

set_option maxRecDepth 4000 in
theorem mid_length (P : Prims α) (t0 : Tape α) (S X H t r v q : Variable α) :
    (mid P t0 S X H t r v q).tape.length = t0.length + 63 := by
  simp only [mid, sub, mul, div, divR, rmulV, raddV, add, lnV, sqrtV, expV,
    pnormV, powfV, negV, addR, unOp, binOp, pushUnary, pushBinary,
    List.length_append, List.length_cons, List.length_nil]
  try omega

theorem AVar_length (P : Prims α) (S X t r v b x1 : Variable α) (tp : Tape α)
    (phi : α) : (AVar P S X t r v b x1 tp phi).1.length = tp.length + 21 := by
  simp only [AVar, sub, mul, div, divR, rmulV, raddV, add, lnV, sqrtV, expV,
    pnormV, powfV, negV, addR, unOp, binOp, pushUnary, pushBinary,
    List.length_append, List.length_cons, List.length_nil]
  try omega

theorem CVar_length (P : Prims α) (S X H t r v b mu y1 : Variable α)
    (tp : Tape α) (phi eta : α) :
    (CVar P S X H t r v b mu y1 tp phi eta).1.length = tp.length + 30 := by
  simp only [CVar, sub, mul, div, divR, rmulV, raddV, add, lnV, sqrtV, expV,
    pnormV, powfV, negV, addR, unOp, binOp, pushUnary, pushBinary,
    List.length_append, List.length_cons, List.length_nil]
  try omega

theorem EVar_length (P : Prims α) (S H t r v K mu x2 y2 : Variable α)
    (tp : Tape α) (eta : α) :
    (EVar P S H t r v K mu x2 y2 tp eta).1.length = tp.length + 22 := by
  simp only [EVar, sub, mul, div, divR, rmulV, raddV, add, lnV, sqrtV, expV,
    pnormV, powfV, negV, addR, unOp, binOp, pushUnary, pushBinary,
    List.length_append, List.length_cons, List.length_nil]
  try omega

theorem FVar_length (P : Prims α) (S H t v K mu lam z : Variable α)
    (tp : Tape α) (eta : α) :
    (FVar P S H t v K mu lam z tp eta).1.length = tp.length + 19 := by
  simp only [FVar, sub, mul, div, divR, rmulV, raddV, add, lnV, sqrtV, expV,
    pnormV, powfV, negV, addR, unOp, binOp, pushUnary, pushBinary,
    List.length_append, List.length_cons, List.length_nil]
  try omega

theorem add_length (t : Tape α) (a b : Variable α) :
    (add t a b).1.length = t.length + 1 := by
  simp [add, binOp, pushBinary]

theorem add_index (t : Tape α) (a b : Variable α) :
    (add t a b).2.index = t.length := rfl

theorem sub_length (t : Tape α) (a b : Variable α) :
    (sub t a b).1.length = t.length + 1 := by
  simp [sub, binOp, pushBinary]

theorem sub_index (t : Tape α) (a b : Variable α) :
    (sub t a b).2.index = t.length := rfl

theorem FVar_index (P : Prims α) (S H t v K mu lam z : Variable α)
    (tp : Tape α) (eta : α) :
    (FVar P S H t v K mu lam z tp eta).2.index = tp.length + 18 := by
  simp only [FVar, sub, mul, div, divR, rmulV, raddV, add, lnV, sqrtV, expV,
    pnormV, powfV, negV, addR, unOp, binOp, pushUnary, pushBinary,
    List.length_append, List.length_cons, List.length_nil]
  try omega

/-- At zero rebate the down-and-in plus down-and-out call sum collapses,
in either strike branch, to the barrier-free `vanillaCall`. -/
theorem in_out_sum (P : Prims α) (S X H t r v q : α) (hH : H ≤ S) :
    addOpt (BarrierOptionClosedForm P S X H t r v 0 q "cdi")
        (BarrierOptionClosedForm P S X H t r v 0 q "cdo")
      = some (vanillaCall P S X t r v q) := by
  unfold BarrierOptionClosedForm
  rcases le_or_lt H X with hx | hx
  · simp only [ge_iff_le, if_pos hx, if_pos hH, String.reduceEq, reduceIte,
      if_true, if_false]
    simp [addOpt, vanillaCall, Afun, Cfun, Efun, Ffun]
  · simp only [ge_iff_le, if_neg (not_le.mpr hx), if_pos hH, String.reduceEq,
      reduceIte, if_true, if_false]
    simp [addOpt, vanillaCall, Afun, Bfun, Dfun, Efun, Ffun]

end Barrier

/-- C9: `BarrierOptionClosedForm` panics (modelled as `none`) exactly when
the flag is not one of the eight codes, or the flag is a down flag and
`S < H`, or the flag is an up flag and `S > H`; for every other input,
including `S = H`, it returns a value. -/
theorem barrier_panic_condition {α : Type} [LinearOrderedField α]
    (P : Prims α) (S X H t r v K q : α) (flag : String) :
    BarrierOptionClosedForm P S X H t r v K q flag = none ↔
      (flag ∉ downFlags ∧ flag ∉ upFlags)
      ∨ (flag ∈ downFlags ∧ S < H) ∨ (flag ∈ upFlags ∧ H < S) := by
  unfold BarrierOptionClosedForm
  by_cases h1 : flag = "cdi"
  · subst h1
    simp only [downFlags, upFlags, List.mem_cons, List.not_mem_nil,
      List.mem_singleton, String.reduceEq, or_false, false_or, false_and,
      and_false, true_and, if_true, if_false, reduceIte, not_true, not_false_iff]
    split_ifs <;> simp_all [ge_iff_le, not_le, not_lt]
  by_cases h2 : flag = "cui"
  · subst h2
    simp only [downFlags, upFlags, List.mem_cons, List.not_mem_nil,
      List.mem_singleton, String.reduceEq, or_false, false_or, false_and,
      and_false, true_and, if_true, if_false, reduceIte, not_true, not_false_iff]
    split_ifs <;> simp_all [ge_iff_le, not_le, not_lt]
  by_cases h3 : flag = "pdi"
  · subst h3
    simp only [downFlags, upFlags, List.mem_cons, List.not_mem_nil,
      List.mem_singleton, String.reduceEq, or_false, false_or, false_and,
      and_false, true_and, if_true, if_false, reduceIte, not_true, not_false_iff]
    split_ifs <;> simp_all [ge_iff_le, not_le, not_lt]
  by_cases h4 : flag = "pui"
  · subst h4
    simp only [downFlags, upFlags, List.mem_cons, List.not_mem_nil,
      List.mem_singleton, String.reduceEq, or_false, false_or, false_and,
      and_false, true_and, if_true, if_false, reduceIte, not_true, not_false_iff]
    split_ifs <;> simp_all [ge_iff_le, not_le, not_lt]
  by_cases h5 : flag = "cdo"
  · subst h5
    simp only [downFlags, upFlags, List.mem_cons, List.not_mem_nil,
      List.mem_singleton, String.reduceEq, or_false, false_or, false_and,
      and_false, true_and, if_true, if_false, reduceIte, not_true, not_false_iff]
    split_ifs <;> simp_all [ge_iff_le, not_le, not_lt]
  by_cases h6 : flag = "cuo"
  · subst h6
    simp only [downFlags, upFlags, List.mem_cons, List.not_mem_nil,
      List.mem_singleton, String.reduceEq, or_false, false_or, false_and,
      and_false, true_and, if_true, if_false, reduceIte, not_true, not_false_iff]
    split_ifs <;> simp_all [ge_iff_le, not_le, not_lt]
  by_cases h7 : flag = "pdo"
  · subst h7
    simp only [downFlags, upFlags, List.mem_cons, List.not_mem_nil,
      List.mem_singleton, String.reduceEq, or_false, false_or, false_and,
      and_false, true_and, if_true, if_false, reduceIte, not_true, not_false_iff]
    split_ifs <;> simp_all [ge_iff_le, not_le, not_lt]
  by_cases h8 : flag = "puo"
  · subst h8
    simp only [downFlags, upFlags, List.mem_cons, List.not_mem_nil,
      List.mem_singleton, String.reduceEq, or_false, false_or, false_and,
      and_false, true_and, if_true, if_false, reduceIte, not_true, not_false_iff]
    split_ifs <;> simp_all [ge_iff_le, not_le, not_lt]
  simp [h1, h2, h3, h4, h5, h6, h7, h8, downFlags, upFlags]

/-- C10: in-out parity at zero rebate — with `K = 0`, positive market
parameters and `S ≥ H`, the sum of the down-and-in and down-and-out call
prices does not depend on the barrier: any two barriers below the spot
give equal sums. -/
theorem barrier_in_out_parity {α : Type} [LinearOrderedField α]
    (P : Prims α) (S X H1 H2 t r v q : α)
    (hS : 0 < S) (hX : 0 < X) (ht : 0 < t) (hv : 0 < v)
    (hH1 : 0 < H1) (hH2 : 0 < H2) (hle1 : H1 ≤ S) (hle2 : H2 ≤ S) :
    addOpt (BarrierOptionClosedForm P S X H1 t r v 0 q "cdi")
        (BarrierOptionClosedForm P S X H1 t r v 0 q "cdo")
      = addOpt (BarrierOptionClosedForm P S X H2 t r v 0 q "cdi")
          (BarrierOptionClosedForm P S X H2 t r v 0 q "cdo") := by
  rw [in_out_sum P S X H1 t r v q hle1, in_out_sum P S X H2 t r v q hle2]

/-- C10 witness: the parity at concrete rational inputs. -/
theorem barrier_in_out_parity_witness :
    addOpt (BarrierOptionClosedForm qPrims 2 1 1 1 1 1 0 1 "cdi")
        (BarrierOptionClosedForm qPrims 2 1 1 1 1 1 0 1 "cdo")
      = addOpt (BarrierOptionClosedForm qPrims 2 1 2 1 1 1 0 1 "cdi")
          (BarrierOptionClosedForm qPrims 2 1 2 1 1 1 0 1 "cdo") :=
  barrier_in_out_parity qPrims 2 1 1 2 1 1 1 1 (by norm_num) (by norm_num)
    (by norm_num) (by norm_num) (by norm_num) (by norm_num) (by norm_num)
    (by norm_num)

set_option maxHeartbeats 2000000 in
/-- Forward-value refinement: evaluating the pricer with Variables gives
exactly the scalar pricer's value (and panics in exactly the same cases). -/
theorem barrierVar_refines_value {α : Type} [LinearOrderedField α]
    (P : Prims α) (t0 : Tape α) (S X H t r v K q : Variable α)
    (flag : String) :
    (BarrierOptionClosedFormVar P t0 S X H t r v K q flag).map
        (fun pr => pr.2.value)
      = BarrierOptionClosedForm P S.value X.value H.value t.value r.value
          v.value K.value q.value flag := by
  by_cases h1 : flag = "cdi"
  · subst h1
    simp only [BarrierOptionClosedFormVar, BarrierOptionClosedForm,
      String.reduceEq, reduceIte, if_true, if_false]
    split_ifs <;>
      simp [add, sub, binOp, AVar_value, BVar, CVar_value, DVar, EVar_value,
        FVar_value, mid_b_value, mid_mu_value, mid_lam_value, mid_z_value,
        mid_x1_value, mid_x2_value, mid_y1_value, mid_y2_value,
        Afun, Bfun, Cfun, Dfun, Efun, Ffun]
  by_cases h2 : flag = "cui"
  · subst h2
    simp only [BarrierOptionClosedFormVar, BarrierOptionClosedForm,
      String.reduceEq, reduceIte, if_true, if_false]
    split_ifs <;>
      simp [add, sub, binOp, AVar_value, BVar, CVar_value, DVar, EVar_value,
        FVar_value, mid_b_value, mid_mu_value, mid_lam_value, mid_z_value,
        mid_x1_value, mid_x2_value, mid_y1_value, mid_y2_value,
        Afun, Bfun, Cfun, Dfun, Efun, Ffun]
  by_cases h3 : flag = "pdi"
  · subst h3
    simp only [BarrierOptionClosedFormVar, BarrierOptionClosedForm,
      String.reduceEq, reduceIte, if_true, if_false]
    split_ifs <;>
      simp [add, sub, binOp, AVar_value, BVar, CVar_value, DVar, EVar_value,
        FVar_value, mid_b_value, mid_mu_value, mid_lam_value, mid_z_value,
        mid_x1_value, mid_x2_value, mid_y1_value, mid_y2_value,
        Afun, Bfun, Cfun, Dfun, Efun, Ffun]
  by_cases h4 : flag = "pui"
  · subst h4
    simp only [BarrierOptionClosedFormVar, BarrierOptionClosedForm,
      String.reduceEq, reduceIte, if_true, if_false]
    split_ifs <;>
      simp [add, sub, binOp, AVar_value, BVar, CVar_value, DVar, EVar_value,
        FVar_value, mid_b_value, mid_mu_value, mid_lam_value, mid_z_value,
        mid_x1_value, mid_x2_value, mid_y1_value, mid_y2_value,
        Afun, Bfun, Cfun, Dfun, Efun, Ffun]
  by_cases h5 : flag = "cdo"
  · subst h5
    simp only [BarrierOptionClosedFormVar, BarrierOptionClosedForm,
      String.reduceEq, reduceIte, if_true, if_false]
    split_ifs <;>
      simp [add, sub, binOp, AVar_value, BVar, CVar_value, DVar, EVar_value,
        FVar_value, mid_b_value, mid_mu_value, mid_lam_value, mid_z_value,
        mid_x1_value, mid_x2_value, mid_y1_value, mid_y2_value,
        Afun, Bfun, Cfun, Dfun, Efun, Ffun]
  by_cases h6 : flag = "cuo"
  · subst h6
    simp only [BarrierOptionClosedFormVar, BarrierOptionClosedForm,
      String.reduceEq, reduceIte, if_true, if_false]
    split_ifs <;>
      simp [add, sub, binOp, AVar_value, BVar, CVar_value, DVar, EVar_value,
        FVar_value, mid_b_value, mid_mu_value, mid_lam_value, mid_z_value,
        mid_x1_value, mid_x2_value, mid_y1_value, mid_y2_value,
        Afun, Bfun, Cfun, Dfun, Efun, Ffun]
  by_cases h7 : flag = "pdo"
  · subst h7
    simp only [BarrierOptionClosedFormVar, BarrierOptionClosedForm,
      String.reduceEq, reduceIte, if_true, if_false]
    split_ifs <;>
      simp [add, sub, binOp, AVar_value, BVar, CVar_value, DVar, EVar_value,
        FVar_value, mid_b_value, mid_mu_value, mid_lam_value, mid_z_value,
        mid_x1_value, mid_x2_value, mid_y1_value, mid_y2_value,
        Afun, Bfun, Cfun, Dfun, Efun, Ffun]
  by_cases h8 : flag = "puo"
  · subst h8
    simp only [BarrierOptionClosedFormVar, BarrierOptionClosedForm,
      String.reduceEq, reduceIte, if_true, if_false]
    split_ifs <;>
      simp [add, sub, binOp, AVar_value, BVar, CVar_value, DVar, EVar_value,
        FVar_value, mid_b_value, mid_mu_value, mid_lam_value, mid_z_value,
        mid_x1_value, mid_x2_value, mid_y1_value, mid_y2_value,
        Afun, Bfun, Cfun, Dfun, Efun, Ffun]
  simp [BarrierOptionClosedFormVar, BarrierOptionClosedForm,
    h1, h2, h3, h4, h5, h6, h7, h8]

set_option maxHeartbeats 2000000 in
/-- The Variable evaluation only appends to the tape, and its result is a
Variable on that tape. -/
theorem barrierVar_avail {α : Type} [LinearOrderedField α]
    (P : Prims α) (t0 : Tape α) (S X H t r v K q : Variable α)
    (flag : String) (pr : Tape α × Variable α)
    (h : BarrierOptionClosedFormVar P t0 S X H t r v K q flag = some pr) :
    t0.length ≤ pr.1.length ∧ pr.2.index < pr.1.length := by
  by_cases h1 : flag = "cdi"
  · subst h1
    simp only [BarrierOptionClosedFormVar, String.reduceEq, reduceIte,
      if_true, if_false] at h
    split_ifs at h <;>
      first
        | exact Option.noConfusion h
        | (obtain rfl := Option.some.inj h
           constructor <;>
             (simp only [add_length, add_index, sub_length, sub_index, BVar,
                DVar, mid_length, AVar_length, CVar_length, EVar_length,
                FVar_length, FVar_index]
              omega))
  by_cases h2 : flag = "cui"
  · subst h2
    simp only [BarrierOptionClosedFormVar, String.reduceEq, reduceIte,
      if_true, if_false] at h
    split_ifs at h <;>
      first
        | exact Option.noConfusion h
        | (obtain rfl := Option.some.inj h
           constructor <;>
             (simp only [add_length, add_index, sub_length, sub_index, BVar,
                DVar, mid_length, AVar_length, CVar_length, EVar_length,
                FVar_length, FVar_index]
              omega))
  by_cases h3 : flag = "pdi"
  · subst h3
    simp only [BarrierOptionClosedFormVar, String.reduceEq, reduceIte,
      if_true, if_false] at h
    split_ifs at h <;>
      first
        | exact Option.noConfusion h
        | (obtain rfl := Option.some.inj h
           constructor <;>
             (simp only [add_length, add_index, sub_length, sub_index, BVar,
                DVar, mid_length, AVar_length, CVar_length, EVar_length,
                FVar_length, FVar_index]
              omega))
  by_cases h4 : flag = "pui"
  · subst h4
    simp only [BarrierOptionClosedFormVar, String.reduceEq, reduceIte,
      if_true, if_false] at h
    split_ifs at h <;>
      first
        | exact Option.noConfusion h
        | (obtain rfl := Option.some.inj h
           constructor <;>
             (simp only [add_length, add_index, sub_length, sub_index, BVar,
                DVar, mid_length, AVar_length, CVar_length, EVar_length,
                FVar_length, FVar_index]
              omega))
  by_cases h5 : flag = "cdo"
  · subst h5
    simp only [BarrierOptionClosedFormVar, String.reduceEq, reduceIte,
      if_true, if_false] at h
    split_ifs at h <;>
      first
        | exact Option.noConfusion h
        | (obtain rfl := Option.some.inj h
           constructor <;>
             (simp only [add_length, add_index, sub_length, sub_index, BVar,
                DVar, mid_length, AVar_length, CVar_length, EVar_length,
                FVar_length, FVar_index]
              omega))
  by_cases h6 : flag = "cuo"
  · subst h6
    simp only [BarrierOptionClosedFormVar, String.reduceEq, reduceIte,
      if_true, if_false] at h
    split_ifs at h <;>
      first
        | exact Option.noConfusion h
        | (obtain rfl := Option.some.inj h
           constructor <;>
             (simp only [add_length, add_index, sub_length, sub_index, BVar,
                DVar, mid_length, AVar_length, CVar_length, EVar_length,
                FVar_length, FVar_index]
              omega))
  by_cases h7 : flag = "pdo"
  · subst h7
    simp only [BarrierOptionClosedFormVar, String.reduceEq, reduceIte,
      if_true, if_false] at h
    split_ifs at h <;>
      first
        | exact Option.noConfusion h
        | (obtain rfl := Option.some.inj h
           constructor <;>
             (simp only [add_length, add_index, sub_length, sub_index, BVar,
                DVar, mid_length, AVar_length, CVar_length, EVar_length,
                FVar_length, FVar_index]
              omega))
  by_cases h8 : flag = "puo"
  · subst h8
    simp only [BarrierOptionClosedFormVar, String.reduceEq, reduceIte,
      if_true, if_false] at h
    split_ifs at h <;>
      first
        | exact Option.noConfusion h
        | (obtain rfl := Option.some.inj h
           constructor <;>
             (simp only [add_length, add_index, sub_length, sub_index, BVar,
                DVar, mid_length, AVar_length, CVar_length, EVar_length,
                FVar_length, FVar_index]
              omega))
  simp [BarrierOptionClosedFormVar, h1, h2, h3, h4, h5, h6, h7, h8] at h

/-- C8: the barrier pricer, written once against scalar reals, can be
evaluated with Variables in place of reals: the evaluation records its
trace on the Tape, the resulting Variable's forward value agrees with the
scalar pricer on every input and flag, and one accumulate call yields a
gradient view whose adjoints cover the whole tape, in particular every
input Variable minted before the call. -/
theorem barrier_pricer_variable_refinement {α : Type} [LinearOrderedField α]
    (P : Prims α) (t0 : Tape α) (S X H t r v K q : Variable α)
    (flag : String) :
    (BarrierOptionClosedFormVar P t0 S X H t r v K q flag).map
        (fun pr => pr.2.value)
      = BarrierOptionClosedForm P S.value X.value H.value t.value r.value
          v.value K.value q.value flag
    ∧ ∀ pr, BarrierOptionClosedFormVar P t0 S X H t r v K q flag = some pr →
        t0.length ≤ pr.1.length ∧ pr.2.index < pr.1.length
        ∧ (accumulate pr.1 pr.2).count = pr.1.length
        ∧ ∀ w : Variable α, w.index < t0.length →
            w.index < (accumulate pr.1 pr.2).count :=
  ⟨barrierVar_refines_value P t0 S X H t r v K q flag,
   fun pr h =>
     ⟨(barrierVar_avail P t0 S X H t r v K q flag pr h).1,
      (barrierVar_avail P t0 S X H t r v K q flag pr h).2,
      rfl,
      fun w hw => lt_of_lt_of_le hw
        ((barrierVar_avail P t0 S X H t r v K q flag pr h).1)⟩⟩
